import Mathlib

/-!
# Verification of the GCS ground-control coordination service

Shallow embedding of `src/main/control/MessageHandler.js` and
`src/main/control/Orchestrator.js` (ES6 classes, single-threaded event-driven
execution).  JavaScript objects whose fields may be `undefined` are rendered
with `Option` fields (`none` plays the role of both `undefined` for absent
properties and `null` for the explicit null value where the code distinguishes
them, noted at each site).  JavaScript statements that throw a `TypeError`
(property access or call on `undefined`/`null`) are rendered with
`Except JSError`; mutations performed before a throw persist, as they do in
JavaScript.

The classes `Vehicle`, `Mission` and `DataStructures/UpdateHandler` are
referenced by the two files but are not part of the analysed sources; their
small surface is modelled from the specification and marked
`Modelled from the spec:` at each definition.
-/

namespace GCS

/-- A JavaScript runtime error: accessing a property of `undefined`/`null`,
or calling a non-function value. -/
inductive JSError where
  | typeError
deriving DecidableEq

/-- ASCII uppercasing of one character, as `String.prototype.toUpperCase`
acts on the message-type strings of this code base (all ASCII). -/
def jsUpperChar (c : Char) : Char :=
  if 97 ≤ c.toNat ∧ c.toNat ≤ 122 then Char.ofNat (c.toNat - 32) else c

/-- `s.toUpperCase()` for ASCII strings, written structurally so that
concrete evaluations reduce. -/
def jsToUpperCase (s : String) : String := String.mk (s.data.map jsUpperChar)

/-- A JSON-shaped message object.  Every field a message may carry in the two
source files appears here; `none` means the property is absent (`undefined`).
Field names follow the source (`vehicleID`, `ackID` — capital `ID`). -/
structure JSMessage where
  id            : Option Int    := none
  sid           : Option String := none
  tid           : Option String := none
  type          : Option String := none
  vehicleID     : Option String := none
  ackID         : Option Int    := none
  ackType       : Option String := none
  jobsAvailable : Option Int    := none
  lat           : Option Int    := none
  lon           : Option Int    := none
  missionData   : Option String := none
  error         : Option String := none
deriving DecidableEq

/-- Modelled from the spec: the `Vehicle` record (§3 data model;
`src/main/control/Vehicle.js` is not among the analysed sources).  The `id` is
`Option`-valued because `processMessage` constructs a vehicle from
`message.sid`, which may be `undefined`. -/
structure Vehicle where
  id                   : Option String
  jobsAvailable        : Option Int := none
  status               : String := "WAITING"
  isActive             : Bool := true
  isAvailable          : Bool := true
  lastConnTime         : Int := 0
  vehicleTimeoutLength : Int := 30000
  appliedUpdates       : List (Option Int) := []
deriving DecidableEq

/-- Modelled from the spec: `new Vehicle(id, jobsAvailable, status)` — a
freshly registered vehicle is registered-and-active and not yet committed to a
mission task (§3: `isActive`, `isAvailable`). -/
def Vehicle.new (id : Option String) (jobs : Option Int) (status : String) : Vehicle :=
  { id := id, jobsAvailable := jobs, status := status }

/-- Modelled from the spec: `setActive` setter (§4.1 `deactivate` sets
`isActive=false`). -/
def Vehicle.setActive (v : Vehicle) (b : Bool) : Vehicle :=
  { v with isActive := b }

/-- Modelled from the spec: `setAvailable` setter (§4.1 `deactivate` sets
`isAvailable=false`). -/
def Vehicle.setAvailable (v : Vehicle) (b : Bool) : Vehicle :=
  { v with isAvailable := b }

/-- Modelled from the spec: `vehicleUpdate(message)` applies an UPDATE
message's vehicle-defined mutable fields to the vehicle (§4.3 step 5);
rendered as recording the applied message id. -/
def Vehicle.vehicleUpdate (v : Vehicle) (m : JSMessage) : Vehicle :=
  { v with appliedUpdates := v.appliedUpdates ++ [m.id] }

/-- Modelled from the spec: the Mission contract (§3, §6;
`src/main/control/Mission.js` is not among the analysed sources).
`isMission` renders the `instanceof Mission` test, `setupOk` whether
`missionSetupComplete()` returns exactly `true`, `startedWith` the history of
`missionStart` payloads, `updates` the messages forwarded via
`missionUpdate`, `activeVehicles` the value of
`getMissionActiveVehicles()`. -/
structure Mission where
  isMission      : Bool := true
  setupOk        : Bool := true
  status         : String := "READY"
  startedWith    : List Int := []
  updates        : List (Option Int) := []
  activeVehicles : List String := []
  name           : String := ""
deriving DecidableEq

/-- Modelled from the spec: `missionStart(requiredData)` transitions the
mission to RUNNING and hands it the payload (§3 Mission lifecycle). -/
def Mission.missionStart (m : Mission) (d : Int) : Mission :=
  { m with status := "RUNNING", startedWith := m.startedWith ++ [d] }

/-- Modelled from the spec: `missionUpdate(message)` forwards a
mission-relevant inbound message to the mission (§6). -/
def Mission.missionUpdate (m : Mission) (msg : JSMessage) : Mission :=
  { m with updates := m.updates ++ [msg.id] }

/-- The combined mutable state of the two singletons (`MessageHandler` and
`Orchestrator`) plus the timer entries held by their `UpdateHandler`
instances.  `timers` is keyed by event string; `currentMission` stores the
schedule index of the object the JS field references (the reference is
always `this.scheduledMissions[this.currentMissionIndex]` at the moment of
assignment, or `null`). -/
structure Sys where
  messageOutbox           : List JSMessage := []
  messagesSent            : List (Option Int) := []
  messagesReceived        : List (Option Int) := []
  timers                  : List (String × Int) := []
  scheduledMissions       : List Mission := []
  scheduledMissionsStatus : List String := []
  currentMission          : Option Nat := none
  currentMissionIndex     : Nat := 0
  currentMissionVehicles  : Option (List String) := none
  nextMissionRequiredData : Option Int := none
  knownVehicles           : List Vehicle := []
  isRunning               : Bool := false
deriving DecidableEq

/-- The state both constructors produce (all collections empty, not
running). -/
def sysInit : Sys := {}

/-- `Orchestrator.getVehicleByID(vID)`: first `v` in `knownVehicles` with
`v.id === vID`, else `null` (`none`).  JavaScript strict equality between two
possibly-`undefined` values is `Option` equality (`undefined === undefined`
is `true`). -/
def getVehicleByID (sys : Sys) (vID : Option String) : Option Vehicle :=
  sys.knownVehicles.find? (fun v => v.id == vID)

/-- Modelled from the spec: `UpdateHandler.addHandler(key, onRenewed,
onExpired, delay)` arms a one-shot timer entry; at most one entry exists per
key, scheduling over an existing key replaces it (§4.2).  The callbacks are
modelled separately where a claim needs them. -/
def addHandler (timers : List (String × Int)) (key : String) (delay : Int) :
    List (String × Int) :=
  (timers.filter (fun t => t.1 ≠ key)) ++ [(key, delay)]

/-- `MessageHandler.rmMsg(mID, box)`: `box.filter(obj => !(obj.id === mID))`.
The parameter rebinding in the source is local; `filter` allocates a new
array, so the caller's array is untouched. -/
def rmMsg (mID : Option Int) (box : List JSMessage) : List JSMessage :=
  box.filter (fun obj => !(obj.id == mID))

/-- `MessageHandler.nextMsgID()`: `return (new Date()).now();` — `Date`
instances have no `now` method (it is the static `Date.now`), so the call is
`undefined(...)` and throws a `TypeError` on every invocation. -/
def nextMsgID : Except JSError Int := .error .typeError

/-- `MessageHandler.asyncSendMessage(msg)`.  At both call sites
(`sendMessageTo` and `ack`) the first actual argument — a recipient-id
string, respectively `msg.sid` — is what binds to the single parameter
`msg`; the second argument is silently dropped by JavaScript.  Hence
`msg.tid`, `msg.mID`, `msg.type`, `msg.id` are all `undefined`:
the event string interpolates to `"undefined-undefined-undefined"`.
If the bound value is itself `undefined` (absent `sid`), the property access
`msg.tid` throws. -/
def asyncSendMessage (sys : Sys) (msgArg : Option String) : Except JSError Sys :=
  match msgArg with
  | none => .error .typeError
  | some _ =>
    .ok { sys with timers := addHandler sys.timers "undefined-undefined-undefined" 3000 }

/-- The renewal callback `asyncSendMessage` installs:
`() => this.rmMsg(msg.id, this.messageOutbox)`.  The filtered list is the
callback's return value and is never assigned back to `this.messageOutbox`,
so the handler leaves the state as it was.  (`msg.id` is `undefined` at both
call sites — see `asyncSendMessage` — but the callback is embedded for an
arbitrary id.) -/
def asyncSendRenewal (msgId : Option Int) (sys : Sys) : Sys :=
  let _ := rmMsg msgId sys.messageOutbox
  sys

/-- `MessageHandler.messageRecipients(msg)`: switch on
`msg.type.toUpperCase()` (throws if `type` is absent); CONNECT pushes
`'GCS'`, UPDATE pushes `'vehicle'`, BADMESSAGE and POI and the default push
nothing; `'GCS'` is always pushed after the switch. -/
def messageRecipients (msg : JSMessage) : Except JSError (List String) :=
  match msg.type with
  | none => .error .typeError
  | some ty =>
    let base : List String :=
      match jsToUpperCase ty with
      | "CONNECT" => ["GCS"]
      | "UPDATE" => ["vehicle"]
      | _ => []
    .ok (base ++ ["GCS"])

/-- The `for (const v of this.messageRecipients(message))` loop body of
`sendMessageTo`: each recipient string is passed to `asyncSendMessage`. -/
def sendLoop (sys : Sys) : List String → Except JSError Sys
  | [] => .ok sys
  | v :: rest =>
    match asyncSendMessage sys (some v) with
    | .error e => .error e
    | .ok s => sendLoop s rest

/-- `MessageHandler.sendMessageTo(vehicle, message)`.  The `vehicle`
parameter is never read in the body.  The switch on `message.type` (raw, not
uppercased) only acts for the exact string `'ACK'`, reassigning
`this.messageOutbox` to `rmMsg(message.ackID, this.messageOutbox)`; then every
recipient is handed to `asyncSendMessage`, and `message.id` is pushed onto
`messagesSent`.  The message is never added to `messageOutbox` and no id is
assigned to it. -/
def sendMessageTo (sys : Sys) (vehicle : Option String) (message : JSMessage) :
    Except JSError Sys :=
  let sys1 :=
    if message.type == some "ACK"
    then { sys with messageOutbox := rmMsg message.ackID sys.messageOutbox }
    else sys
  match messageRecipients message with
  | .error e => .error e
  | .ok recips =>
    match sendLoop sys1 recips with
    | .error e => .error e
    | .ok sys2 => .ok { sys2 with messagesSent := sys2.messagesSent ++ [message.id] }

/-- `MessageHandler.ack(msg)`: builds the ACK object — whose `id` field calls
`nextMsgID()`, which always throws — and would then call
`asyncSendMessage(msg.sid, ackMsg)` (first argument binds the parameter). -/
def ack (sys : Sys) (msg : JSMessage) : Except JSError Sys :=
  match nextMsgID with
  | .error e => .error e
  | .ok n =>
    let _ackMsg : JSMessage :=
      { id := some n, tid := msg.sid, sid := some "GCS", type := some "ACK",
        ackID := msg.id }
    asyncSendMessage sys msg.sid

/-- `MessageHandler.receiveMessage(msg)`.  The comments in the source
describe dropping a message whose id is already in `messagesReceived`, but no
such check exists: the id is pushed unconditionally, then `ack(msg)` is
called (which throws in `nextMsgID`).  Mutations made before a throw
persist, so the pair returned is (state as mutated so far, outcome).  The
code after `ack` — `getVehicleByID(msg.sid).lastConnTime = Date.now()`
(throws on `null`) and a switch whose every reachable case is a bare
`break` — is embedded although the `ack` throw makes it unreachable. -/
def receiveMessage (sys : Sys) (now : Int) (msg : JSMessage) :
    Sys × Except JSError Unit :=
  let sys1 := { sys with messagesReceived := sys.messagesReceived ++ [msg.id] }
  match ack sys1 msg with
  | .error e => (sys1, .error e)
  | .ok sys2 =>
    match getVehicleByID sys2 msg.sid with
    | none => (sys2, .error .typeError)
    | some _ =>
      let sys3 := { sys2 with
        knownVehicles := sys2.knownVehicles.map
          (fun v => if v.id == msg.sid then { v with lastConnTime := now } else v) }
      match msg.type with
      | none => (sys3, .error .typeError)
      | some _ => (sys3, .ok ())

/-- The base required fields plus the type-specific ones, switching on
`msg.type.toUpperCase()`.  The source's `case 'badMessage':` arm is written
in mixed case and can never match an uppercased scrutinee, so it behaves as
the default (no extra fields); both fall to the catch-all here. -/
def reqdFieldsFor (ty : String) : List String :=
  let base := ["id", "type", "vehicleID"]
  match jsToUpperCase ty with
  | "UPDATE" => base
  | "ACK" => base ++ ["ackID", "ackType"]
  | "CONNECT" => base ++ ["jobsAvailable"]
  | "POI" => base ++ ["lat", "lon"]
  | "COMPLETE" => base ++ ["missionData"]
  | _ => base

/-- `msg.hasOwnProperty(field)` for the fields `isValidFormat` may query. -/
def hasField (m : JSMessage) : String → Bool
  | "id" => m.id.isSome
  | "type" => m.type.isSome
  | "vehicleID" => m.vehicleID.isSome
  | "ackID" => m.ackID.isSome
  | "ackType" => m.ackType.isSome
  | "jobsAvailable" => m.jobsAvailable.isSome
  | "lat" => m.lat.isSome
  | "lon" => m.lon.isSome
  | "missionData" => m.missionData.isSome
  | _ => false

/-- `MessageHandler.isValidFormat(msg)`: returns `null` (`none`) when `type`
is absent; otherwise computes the missing required fields; when some are
missing and `vehicleID` is present it builds a `badMessage` reply — whose
`id:` field calls `nextMsgID()` and therefore throws — else returns `null`;
with nothing missing it returns `true`. -/
def isValidFormat (sys : Sys) (msg : JSMessage) :
    Except JSError (Sys × Option Bool) :=
  match msg.type with
  | none => .ok (sys, none)
  | some ty =>
    let missing := (reqdFieldsFor ty).filter (fun f => !hasField msg f)
    let rv := !(missing.length > 0)
    if !rv then
      if msg.vehicleID.isSome then
        match nextMsgID with
        | .error e => .error e
        | .ok n =>
          match sendMessageTo sys msg.vehicleID
              { id := some n, type := some "badMessage",
                error := some ("Missing fields: " ++ String.intercalate ", " missing) } with
          | .error e => .error e
          | .ok sys2 => .ok (sys2, some false)
      else .ok (sys, none)
    else .ok (sys, some rv)

/-- `Orchestrator.deactivateVehicle(vehicle)`:
`vehicle.setActive(false); vehicle.setAvailable(false);` — the vehicle stays
in `knownVehicles`. -/
def deactivateVehicle (v : Vehicle) : Vehicle :=
  (v.setActive false).setAvailable false

/-- The effect of `deactivateVehicle` on the registry: the JavaScript call
mutates the vehicle object through its reference, which is the entry of
`knownVehicles` carrying that id; rendered as an in-place keyed update
(exact whenever at most one entry carries the id, which the CONNECT path
maintains by filtering before pushing). -/
def deactivateVehicleIn (sys : Sys) (vid : Option String) : Sys :=
  let updated := sys.knownVehicles.map
    (fun v => if v.id == vid then deactivateVehicle v else v)
  { sys with knownVehicles := updated }

/-- The three ways `Orchestrator.pingAgain_f(vehicle)` can act on a proper
`Vehicle` instance. -/
inductive PingAction where
  | refuse
  | rearm (delay : Int)
  | deactivate
deriving DecidableEq

/-- `Orchestrator.pingAgain_f(vehicle)` for a value that is a `Vehicle`
instance: the guard
`(((v !== undefined) && (v !== null)) && !(v instanceof Vehicle)) || (!v.isActive)`
reduces to `!v.isActive` (the first disjunct is false for an instance).
An inactive vehicle is refused — no handler is re-armed; otherwise the timer
is re-armed when `0 <= now - lastConnTime <= vehicleTimeoutLength`, else the
vehicle is deactivated. -/
def pingAgain_f (now : Int) (v : Vehicle) : PingAction :=
  if !v.isActive then .refuse
  else
    let delta := now - v.lastConnTime
    if 0 ≤ delta ∧ delta ≤ v.vehicleTimeoutLength then .rearm delta
    else .deactivate

/-- `Orchestrator.reset()`: clears all sequencer state unconditionally. -/
def reset (sys : Sys) : Sys :=
  { sys with
    isRunning := false, currentMission := none, currentMissionIndex := 0,
    currentMissionVehicles := none, scheduledMissions := [],
    scheduledMissionsStatus := [], nextMissionRequiredData := none }

/-- The `for (let i = 0; ...)` loop body of `Orchestrator.addMissions`: a
mission failing `instanceof Mission` or whose `missionSetupComplete()` is not
exactly `true` triggers `this.reset(); return;`; otherwise the mission and its
current `status` are pushed onto the two parallel arrays and the loop
continues.  (The `listenForStatusUpdates` subscription installs an external
status-stream callback; callback firings are separate events, not part of
this operation.) -/
def addMissionsLoop (sys : Sys) : List Mission → Sys
  | [] => sys
  | m :: rest =>
    if !m.isMission then reset sys
    else if !m.setupOk then reset sys
    else addMissionsLoop
      { sys with
        scheduledMissions := sys.scheduledMissions ++ [m],
        scheduledMissionsStatus := sys.scheduledMissionsStatus ++ [m.status] }
      rest

/-- `Orchestrator.addMissions(missions)`: refused (plain `return`, nothing
touched) while `isRunning`; otherwise the loop above. -/
def addMissions (sys : Sys) (missions : List Mission) : Sys :=
  if sys.isRunning then sys else addMissionsLoop sys missions

/-- `Orchestrator.allMissionsAreReady()`. -/
def allMissionsAreReady (sys : Sys) : Bool :=
  sys.scheduledMissionsStatus.all (fun status => status == "READY")

/-- `Orchestrator.startMission(requiredData)`:
`this.scheduledMissions[this.currentMissionIndex].status` throws when the
index is out of bounds (`undefined.status`).  On a READY mission: sets
`isRunning`, aliases `currentMission` to the scheduled entry, starts it with
the payload (mutating the entry through the alias), and captures
`getMissionActiveVehicles()`.  Otherwise sets `isRunning = false` and logs
via `currentMissionName()`, which reads `this.currentMission.name` and throws
when `currentMission` is `null`. -/
def startMission (sys : Sys) (requiredData : Int) : Except JSError Sys :=
  match sys.scheduledMissions[sys.currentMissionIndex]? with
  | none => .error .typeError
  | some m =>
    if m.status = "READY" then
      let m1 := m.missionStart requiredData
      .ok { sys with
        isRunning := true,
        scheduledMissions := sys.scheduledMissions.set sys.currentMissionIndex m1,
        currentMission := some sys.currentMissionIndex,
        currentMissionVehicles := some m1.activeVehicles }
    else
      let sys1 := { sys with isRunning := false }
      match sys1.currentMission with
      | none => .error .typeError
      | some _ => .ok sys1

/-- `Orchestrator.endMission(nextRequired)`: stores `nextRequired`, increments
`currentMissionIndex`, then tests
`this.scheduledMissions.length < this.currentMissionIndex` — start the next
mission only when the schedule is *shorter* than the new index (an index that
is out of bounds), and reset otherwise. -/
def endMission (sys : Sys) (nextRequired : Int) : Except JSError Sys :=
  let sys1 := { sys with
    nextMissionRequiredData := some nextRequired,
    currentMissionIndex := sys.currentMissionIndex + 1 }
  if sys1.scheduledMissions.length < sys1.currentMissionIndex then
    startMission sys1 nextRequired
  else
    .ok (reset sys1)

/-- The effect of `vehc.vehicleUpdate(message)` on the registry through the
alias returned by `getVehicleByID` (keyed in-place update, as for
`deactivateVehicleIn`). -/
def vehicleUpdateIn (sys : Sys) (vid : Option String) (message : JSMessage) : Sys :=
  let updated := sys.knownVehicles.map
    (fun v => if v.id == vid then v.vehicleUpdate message else v)
  { sys with knownVehicles := updated }

/-- The effect of
`this.scheduledMissions[this.currentMissionIndex].missionUpdate(message)`
on the schedule entry. -/
def missionUpdateIn (sys : Sys) (message : JSMessage) : Sys :=
  { sys with scheduledMissions :=
      match sys.scheduledMissions[sys.currentMissionIndex]? with
      | none => sys.scheduledMissions
      | some m => sys.scheduledMissions.set sys.currentMissionIndex
          (m.missionUpdate message) }

/-- `Orchestrator.processMessage(message)`.
`message.type.toUpperCase()` throws when `type` is absent.  CONNECT branch:
the guard is `vehc !== undefined && vehc.isActive`; `getVehicleByID` returns
`null` on a miss, which *passes* the `!== undefined` test, so `vehc.isActive`
is then read on `null` and throws.  On an active holder the message is logged
and ignored; otherwise any entry with the id is filtered out, a fresh
`Vehicle(message.sid, message.jobsAvailable, 'WAITING')` is pushed and a
`connectionAck` is sent.  Non-CONNECT: an unknown sender
(`vehc === undefined || vehc === null`) is logged and dropped; an inactive
sender is sent `stop` and dropped; UPDATE mutates the sender vehicle;
POI/COMPLETE test `message.sid in this.currentMissionVehicles` — the `in`
operator throws on `null` — and forward to the scheduled mission at the
current index (reading `.missionUpdate` of `undefined` throws when the index
is out of bounds); membership itself is modelled from the spec (§4.3 step 5:
sender belongs to the active mission's vehicle set). -/
def processMessage (sys : Sys) (message : JSMessage) : Except JSError Sys :=
  let vehc := getVehicleByID sys message.sid
  match message.type with
  | none => .error .typeError
  | some ty =>
    let msgStr := jsToUpperCase ty
    if msgStr = "CONNECT" then
      match vehc with
      | none => .error .typeError
      | some v =>
        if v.isActive then .ok sys
        else
          let sys1 := { sys with knownVehicles :=
            sys.knownVehicles.filter (fun w => !(w.id == message.sid)) }
          let newVehc := Vehicle.new message.sid message.jobsAvailable "WAITING"
          let sys2 := { sys1 with knownVehicles := sys1.knownVehicles ++ [newVehc] }
          sendMessageTo sys2 message.sid { type := some "connectionAck" }
    else
      match vehc with
      | none => .ok sys
      | some v =>
        if !v.isActive then
          sendMessageTo sys v.id { type := some "stop" }
        else if msgStr = "UPDATE" then
          .ok (vehicleUpdateIn sys message.sid message)
        else if msgStr = "POI" ∨ msgStr = "COMPLETE" then
          match sys.currentMissionVehicles, message.sid with
          | none, _ => .error .typeError
          | some lst, sid =>
            if (match sid with | some s => lst.contains s | none => false) then
              match sys.scheduledMissions[sys.currentMissionIndex]? with
              | none => .error .typeError
              | some _ => .ok (missionUpdateIn sys message)
            else .ok sys
        else .ok sys

/-! ## Concrete inputs used by the claim theorems and witnesses -/

/-- The spec's end-to-end example message:
`{id:1, sid:"V1", type:"CONNECT", jobsAvailable:2}`. -/
def connectV1 : JSMessage :=
  { id := some 1, sid := some "V1", type := some "CONNECT", jobsAvailable := some 2 }

/-- An active registered vehicle `V1`. -/
def vehV1 : Vehicle := Vehicle.new (some "V1") (some 2) "WAITING"

/-- A state whose registry holds exactly the active vehicle `V1`. -/
def sysV1 : Sys := { sysInit with knownVehicles := [vehV1] }

/-- A state that has already recorded inbound message id `1`. -/
def sysDup : Sys := { sysV1 with messagesReceived := [some 1] }

/-- A setup-complete mission. -/
def missionA : Mission := { name := "A" }

/-- A second setup-complete mission. -/
def missionM1 : Mission := { name := "M1" }

/-- A mission that is not setup-complete (`missionSetupComplete()` not
`true`). -/
def missionBbad : Mission := { name := "B", setupOk := false, status := "NOT_READY" }

/-- An outbound message with id 5 awaiting acknowledgment. -/
def updMsg5 : JSMessage := { id := some 5, type := some "UPDATE", sid := some "GCS" }

/-- An inbound ACK for message id 5 from `V1`. -/
def ackFor5 : JSMessage :=
  { id := some 9, sid := some "V1", type := some "ACK", ackID := some 5,
    ackType := some "UPDATE", vehicleID := some "V1" }

/-- A CONNECT message missing its required `jobsAvailable` field, with the
sender identifiable through `vehicleID`. -/
def badConnect : JSMessage :=
  { id := some 1, type := some "CONNECT", vehicleID := some "V1" }

/-- A CONNECT message from `vid` with the spec's example payload. -/
def connectMsgFor (vid : String) : JSMessage :=
  { id := some 1, sid := some vid, type := some "CONNECT", jobsAvailable := some 2 }

/-- The sequencer states reachable through the operations the parallel-array
claim names: construction, `addMissions` (any batch) and `reset`.  (Status
events delivered through `listenForStatusUpdates` subscriptions are external
stimuli, not operations of the Orchestrator.) -/
inductive Reachable : Sys → Prop where
  | init : Reachable sysInit
  | add (missions : List Mission) {sys : Sys} :
      Reachable sys → Reachable (addMissions sys missions)
  | rst {sys : Sys} : Reachable sys → Reachable (reset sys)


/-! ## Claim theorems -/

/-- C1: delivering a message whose id is already recorded in
`messagesReceived` is *not* dropped: `receiveMessage` pushes the duplicate id
again (a second state mutation) and proceeds to attempt a second ACK, which
throws inside `nextMsgID`.  This refutes idempotent re-delivery on the code;
the comments of `receiveMessage` themselves call for the dedup check that is
missing. -/
theorem C1_duplicate_delivery_mutates_and_acks_again :
    sysDup.messagesReceived = [some 1] ∧ connectV1.id = some 1 ∧
    (receiveMessage sysDup 0 connectV1).1.messagesReceived = [some 1, some 1] ∧
    (receiveMessage sysDup 0 connectV1).1 ≠ sysDup ∧
    (receiveMessage sysDup 0 connectV1).2 = Except.error JSError.typeError :=
  ⟨rfl, rfl, rfl, by decide, rfl⟩

/-- C2: with schedule `[M0 READY, M1 READY]`, index 0 and M0 running,
`endMission(d1)` does not advance to M1: the test
`scheduledMissions.length < currentMissionIndex` (`2 < 1`) is false, so the
else branch performs a full reset — the schedule is cleared and nothing is
started with `d1`.  The comparison is inverted relative to the function's own
comment ("forwarding the data to the next mission scheduled to start"). -/
theorem C2_endMission_resets_instead_of_advancing :
    (startMission (addMissions sysInit [missionA, missionM1]) 0).map
      (fun s => s.isRunning) = .ok true ∧
    (startMission (addMissions sysInit [missionA, missionM1]) 0).map
      (fun s => s.currentMissionIndex) = .ok 0 ∧
    (startMission (addMissions sysInit [missionA, missionM1]) 0).map
      (fun s => s.scheduledMissions.length) = .ok 2 ∧
    ((startMission (addMissions sysInit [missionA, missionM1]) 0).bind
      (fun s => endMission s 1)).map (fun s => s.scheduledMissions) = .ok [] ∧
    ((startMission (addMissions sysInit [missionA, missionM1]) 0).bind
      (fun s => endMission s 1)).map (fun s => s.isRunning) = .ok false :=
  ⟨rfl, rfl, rfl, rfl, rfl⟩

/-- C3: processing `{id:1, sid:"V1", type:"CONNECT", jobsAvailable:2}` on an
empty registry throws a `TypeError` instead of registering `V1`:
`getVehicleByID` returns `null`, which passes the branch guard
`vehc !== undefined`, and `vehc.isActive` is then read on `null`. -/
theorem C3_connect_on_empty_registry_throws :
    sysInit.knownVehicles = [] ∧
    getVehicleByID sysInit connectV1.sid = none ∧
    processMessage sysInit connectV1 = .error .typeError :=
  ⟨rfl, rfl, rfl⟩

/-- C4 counterexample: the claim quantifies over every state, but while a
mission is running `addMissions` returns immediately without resetting, so a
batch containing a not-setup-complete mission leaves the previously scheduled
(and by now started) mission in place — the schedule is not empty. -/
theorem C4_counterexample :
    missionBbad.setupOk = false ∧
    (startMission (addMissions sysInit [missionA]) 0).map
      (fun s => s.isRunning) = .ok true ∧
    (startMission (addMissions sysInit [missionA]) 0).map
      (fun s => (addMissions s [missionBbad]).scheduledMissions)
      = .ok [missionA.missionStart 0] ∧
    [missionA.missionStart 0] ≠ ([] : List Mission) :=
  ⟨rfl, rfl, rfl, by decide⟩

/-- C4 (amended: restricted to states where no mission is actively running):
if any entry of the batch fails the `instanceof Mission` test or is not
setup-complete, `addMissions` leaves both the schedule and the status table
completely empty — the failing entry, the earlier entries of the batch and
any previously scheduled missions are all discarded by the `reset()` call. -/
theorem C4_addMissions_fail_fast_when_not_running (sys : Sys)
    (missions : List Mission) (hrun : sys.isRunning = false)
    (hbad : ∃ m ∈ missions, m.isMission = false ∨ m.setupOk = false) :
    (addMissions sys missions).scheduledMissions = [] ∧
    (addMissions sys missions).scheduledMissionsStatus = [] := by
  have key : ∀ (ms : List Mission) (s : Sys),
      (∃ m ∈ ms, m.isMission = false ∨ m.setupOk = false) →
      (addMissionsLoop s ms).scheduledMissions = [] ∧
      (addMissionsLoop s ms).scheduledMissionsStatus = [] := by
    intro ms
    induction ms with
    | nil =>
      intro s h
      rcases h with ⟨m, hm, _⟩
      cases hm
    | cons m rest ih =>
      intro s h
      by_cases h1 : m.isMission
      · by_cases h2 : m.setupOk
        · rcases h with ⟨m2, hm2, hflag⟩
          rcases List.mem_cons.mp hm2 with heq | hm3
          · subst heq
            rcases hflag with hf | hf
            · rw [h1] at hf; cases hf
            · rw [h2] at hf; cases hf
          · simp only [addMissionsLoop, h1, h2, Bool.not_true, Bool.false_eq_true,
              if_false]
            exact ih _ ⟨m2, hm3, hflag⟩
        · simp only [Bool.not_eq_true] at h2
          simp [addMissionsLoop, h1, h2, reset]
      · simp only [Bool.not_eq_true] at h1
        simp [addMissionsLoop, h1, reset]
  rw [addMissions, hrun]
  simpa using key missions sys hbad

/-- C4 witness: the amended theorem applied to the empty initial state and the
batch `[A ready, B not-ready]`. -/
theorem C4_witness :
    sysInit.isRunning = false ∧
    (∃ m ∈ [missionA, missionBbad], m.isMission = false ∨ m.setupOk = false) ∧
    (addMissions sysInit [missionA, missionBbad]).scheduledMissions = [] ∧
    (addMissions sysInit [missionA, missionBbad]).scheduledMissionsStatus = [] :=
  ⟨rfl, ⟨missionBbad, by decide, Or.inr rfl⟩,
    C4_addMissions_fail_fast_when_not_running sysInit [missionA, missionBbad]
      rfl ⟨missionBbad, by decide, Or.inr rfl⟩⟩

/-- C5: `sendMessageTo` never assigns the message a fresh id and never stores
it in `messageOutbox` (it only pushes the caller-supplied id onto
`messagesSent`), and the inbound path of a subsequent
`{type: ACK, ackID: 5}` throws inside `ack` before reaching any resolution
logic — `receiveMessage` has no ACK handling at all.  This refutes the ack
round-trip as specified. -/
theorem C5_send_does_not_track_and_ack_does_not_resolve :
    sysV1.messageOutbox = [] ∧
    (sendMessageTo sysV1 (some "V1") updMsg5).map
      (fun s => s.messageOutbox) = .ok [] ∧
    (sendMessageTo sysV1 (some "V1") updMsg5).map
      (fun s => s.messagesSent) = .ok [some 5] ∧
    (receiveMessage sysV1 0 ackFor5).2 = .error .typeError :=
  ⟨rfl, rfl, rfl, rfl⟩

/-- C6: a CONNECT for an id whose registry lookup yields an active vehicle is
logged and ignored: `processMessage` returns with the entire state — registry
included — unchanged, and no error reaches the caller. -/
theorem C6_connect_conflict_is_ignored (sys : Sys) (message : JSMessage)
    (ty : String) (v : Vehicle)
    (hty : message.type = some ty) (hup : jsToUpperCase ty = "CONNECT")
    (hfind : getVehicleByID sys message.sid = some v)
    (hact : v.isActive = true) :
    processMessage sys message = .ok sys := by
  unfold processMessage
  rw [hty, hfind]
  simp [hup, hact]

/-- C6 witness: the conflict theorem at a registry holding the active `V1`
and the spec's example CONNECT message. -/
theorem C6_witness :
    connectV1.type = some "CONNECT" ∧
    jsToUpperCase "CONNECT" = "CONNECT" ∧
    getVehicleByID sysV1 connectV1.sid = some vehV1 ∧
    vehV1.isActive = true ∧
    processMessage sysV1 connectV1 = .ok sysV1 :=
  ⟨rfl, rfl, rfl, rfl,
    C6_connect_conflict_is_ignored sysV1 connectV1 "CONNECT" vehV1 rfl rfl rfl rfl⟩

/-- C7: after deactivating the registered vehicle `vid`: every registry entry
with that id has `isActive = false` and `isAvailable = false`; deactivating
again changes nothing (idempotent, no error); `pingAgain_f` refuses to re-arm
the liveness handler for the deactivated entry; the record remains in the
registry (the id sequence is unchanged); and a subsequent CONNECT for `vid`
succeeds, replacing the stale record with a fresh active WAITING vehicle. -/
theorem C7_deactivation_terminal_but_reversible (sys : Sys) (vid : String)
    (now : Int) (hex : ∃ v, v ∈ sys.knownVehicles ∧ v.id = some vid) :
    (∀ v, v ∈ (deactivateVehicleIn sys (some vid)).knownVehicles →
      v.id = some vid → v.isActive = false ∧ v.isAvailable = false) ∧
    deactivateVehicleIn (deactivateVehicleIn sys (some vid)) (some vid)
      = deactivateVehicleIn sys (some vid) ∧
    (∀ v, v ∈ (deactivateVehicleIn sys (some vid)).knownVehicles →
      v.id = some vid → pingAgain_f now v = PingAction.refuse) ∧
    (deactivateVehicleIn sys (some vid)).knownVehicles.map Vehicle.id
      = sys.knownVehicles.map Vehicle.id ∧
    (∃ sys2, processMessage (deactivateVehicleIn sys (some vid))
        (connectMsgFor vid) = .ok sys2 ∧
      sys2.knownVehicles
        = (deactivateVehicleIn sys (some vid)).knownVehicles.filter
            (fun u => !(u.id == some vid))
          ++ [Vehicle.new (some vid) (some 2) "WAITING"] ∧
      (Vehicle.new (some vid) (some 2) "WAITING").isActive = true ∧
      (Vehicle.new (some vid) (some 2) "WAITING").status = "WAITING") := by
  have hflags : ∀ v, v ∈ (deactivateVehicleIn sys (some vid)).knownVehicles →
      v.id = some vid → v.isActive = false ∧ v.isAvailable = false := by
    intro v hv hid
    simp only [deactivateVehicleIn, List.mem_map] at hv
    rcases hv with ⟨w, hw, rfl⟩
    by_cases hwid : (w.id == some vid) = true
    · simp [hwid, deactivateVehicle, Vehicle.setActive, Vehicle.setAvailable]
    · rw [if_neg hwid] at hid
      exact absurd (by simp [hid]) hwid
  refine ⟨hflags, ?_, ?_, ?_, ?_⟩
  · simp only [deactivateVehicleIn, List.map_map]
    congr 1
    apply List.map_congr_left
    intro w hw
    by_cases hwid : (w.id == some vid) = true
    · simp [Function.comp, hwid, deactivateVehicle, Vehicle.setActive,
        Vehicle.setAvailable]
    · simp [Function.comp, hwid]
  · intro v hv hid
    have h1 := (hflags v hv hid).1
    simp [pingAgain_f, h1]
  · simp only [deactivateVehicleIn, List.map_map]
    apply List.map_congr_left
    intro w hw
    by_cases hwid : (w.id == some vid) = true
    · simp [Function.comp, hwid, deactivateVehicle, Vehicle.setActive,
        Vehicle.setAvailable]
    · simp [Function.comp, hwid]
  · have hmem : ∃ x ∈ (deactivateVehicleIn sys (some vid)).knownVehicles,
        (x.id == some vid) = true := by
      rcases hex with ⟨v, hv, hid⟩
      refine ⟨if (v.id == some vid) = true then deactivateVehicle v else v, ?_, ?_⟩
      · simp only [deactivateVehicleIn]
        exact List.mem_map_of_mem _ hv
      · by_cases hc : (v.id == some vid) = true
        · simp [hc, deactivateVehicle, Vehicle.setActive, Vehicle.setAvailable]
        · exact absurd (by simp [hid]) hc
    have hsome : (getVehicleByID (deactivateVehicleIn sys (some vid))
        (some vid)).isSome := by
      simpa [getVehicleByID] using List.find?_isSome.mpr hmem
    rcases Option.isSome_iff_exists.mp hsome with ⟨w, hw⟩
    have hfind2 : List.find? (fun v => v.id == some vid)
        (deactivateVehicleIn sys (some vid)).knownVehicles = some w := by
      simpa [getVehicleByID] using hw
    have hwprop := List.find?_some hfind2
    have hwmem : w ∈ (deactivateVehicleIn sys (some vid)).knownVehicles :=
      List.mem_of_find?_eq_some hfind2
    have hwid : w.id = some vid := by simpa using hwprop
    have hwact : w.isActive = false := (hflags w hwmem hwid).1
    have hcu : jsToUpperCase "CONNECT" = "CONNECT" := rfl
    refine ⟨{ deactivateVehicleIn sys (some vid) with
        knownVehicles := (deactivateVehicleIn sys (some vid)).knownVehicles.filter
            (fun u => !(u.id == some vid))
          ++ [Vehicle.new (some vid) (some 2) "WAITING"],
        timers := addHandler (deactivateVehicleIn sys (some vid)).timers
          "undefined-undefined-undefined" 3000,
        messagesSent := (deactivateVehicleIn sys (some vid)).messagesSent
          ++ [none] }, ?_, rfl, rfl, rfl⟩
    unfold processMessage
    simp only [connectMsgFor] at hw ⊢
    rw [hw]
    simp [hcu, hwact, sendMessageTo, messageRecipients, sendLoop, asyncSendMessage]

/-- C7 witness: the deactivation theorem at the singleton registry `[V1]`. -/
theorem C7_witness :
    (∃ v, v ∈ sysV1.knownVehicles ∧ v.id = some "V1") ∧
    ((∀ v, v ∈ (deactivateVehicleIn sysV1 (some "V1")).knownVehicles →
      v.id = some "V1" → v.isActive = false ∧ v.isAvailable = false) ∧
    deactivateVehicleIn (deactivateVehicleIn sysV1 (some "V1")) (some "V1")
      = deactivateVehicleIn sysV1 (some "V1") ∧
    (∀ v, v ∈ (deactivateVehicleIn sysV1 (some "V1")).knownVehicles →
      v.id = some "V1" → pingAgain_f 0 v = PingAction.refuse) ∧
    (deactivateVehicleIn sysV1 (some "V1")).knownVehicles.map Vehicle.id
      = sysV1.knownVehicles.map Vehicle.id ∧
    (∃ sys2, processMessage (deactivateVehicleIn sysV1 (some "V1"))
        (connectMsgFor "V1") = .ok sys2 ∧
      sys2.knownVehicles
        = (deactivateVehicleIn sysV1 (some "V1")).knownVehicles.filter
            (fun u => !(u.id == some "V1"))
          ++ [Vehicle.new (some "V1") (some 2) "WAITING"] ∧
      (Vehicle.new (some "V1") (some 2) "WAITING").isActive = true ∧
      (Vehicle.new (some "V1") (some 2) "WAITING").status = "WAITING")) :=
  ⟨⟨vehV1, by decide, rfl⟩,
    C7_deactivation_terminal_but_reversible sysV1 "V1" 0 ⟨vehV1, by decide, rfl⟩⟩

/-- C8: schema validation does not behave as specified on either failure
path.  For `{id:1, type:"CONNECT", vehicleID:"V1"}` (required
`jobsAvailable` missing, sender identifiable) the computed missing-field
list is exactly `["jobsAvailable"]`, but building the BADMESSAGE reply calls
`nextMsgID()` — `(new Date()).now()` — which throws a `TypeError` before any
reply is sent; and a message with no `type` field at all returns `null`
with no reply even though `vehicleID` is present. -/
theorem C8_validation_reply_path_throws :
    badConnect.vehicleID.isSome = true ∧
    (reqdFieldsFor "CONNECT").filter (fun f => !hasField badConnect f)
      = ["jobsAvailable"] ∧
    isValidFormat sysInit badConnect = .error .typeError ∧
    isValidFormat sysInit { id := some 1, vehicleID := some "V1" }
      = .ok (sysInit, none) :=
  ⟨rfl, rfl, rfl, rfl⟩

/-- C9: `rmMsg` returns the input list with exactly the entries whose `id`
equals `mID` removed (membership characterisation plus order preservation as
a sublist), and the renewal handler installed by `asyncSendMessage` — which
computes `rmMsg` and discards the result — leaves the state, in particular
`messageOutbox`, exactly as it was. -/
theorem C9_rmMsg_pure_removal_and_renewal_noop (mID : Option Int)
    (box : List JSMessage) (sys : Sys) :
    (∀ x, x ∈ rmMsg mID box ↔ x ∈ box ∧ ¬(x.id = mID)) ∧
    (rmMsg mID box).Sublist box ∧
    asyncSendRenewal mID sys = sys ∧
    (asyncSendRenewal mID sys).messageOutbox = sys.messageOutbox := by
  refine ⟨?_, List.filter_sublist _, rfl, rfl⟩
  intro x
  simp [rmMsg]

/-- The loop of `addMissions` preserves the parallel-table invariant: the
status table is pointwise the `status` of the mission at the same position. -/
theorem statusTableInvariantLoop (missions : List Mission) : ∀ sys : Sys,
    sys.scheduledMissionsStatus = sys.scheduledMissions.map Mission.status →
    (addMissionsLoop sys missions).scheduledMissionsStatus
      = (addMissionsLoop sys missions).scheduledMissions.map Mission.status := by
  induction missions with
  | nil => intro sys h; exact h
  | cons m rest ih =>
    intro sys h
    by_cases h1 : m.isMission
    · by_cases h2 : m.setupOk
      · simp only [addMissionsLoop, h1, h2, Bool.not_true, Bool.false_eq_true,
          if_false]
        exact ih _ (by simp [h])
      · simp only [Bool.not_eq_true] at h2
        simp [addMissionsLoop, h1, h2, reset]
    · simp only [Bool.not_eq_true] at h1
      simp [addMissionsLoop, h1, reset]

/-- Every state reachable through construction, `addMissions` and `reset`
satisfies the parallel-table invariant. -/
theorem statusTableInvariant (sys : Sys) (h : Reachable sys) :
    sys.scheduledMissionsStatus = sys.scheduledMissions.map Mission.status := by
  induction h with
  | init => rfl
  | add missions hr ih =>
    rw [addMissions]
    split
    · exact ih
    · exact statusTableInvariantLoop missions _ ih
  | rst hr ih => simp [reset]

/-- C10: in every state reachable through the Orchestrator's construction,
`addMissions` and `reset`, the two parallel arrays have equal length and the
status stored at each position is the status of the mission scheduled at that
position. -/
theorem C10_parallel_arrays (sys : Sys) (h : Reachable sys) :
    sys.scheduledMissionsStatus.length = sys.scheduledMissions.length ∧
    ∀ i : Nat, sys.scheduledMissionsStatus[i]?
      = (sys.scheduledMissions[i]?).map Mission.status := by
  have key := statusTableInvariant sys h
  constructor
  · rw [key, List.length_map]
  · intro i
    rw [key, List.getElem?_map]

/-- C10 witness: the invariant at the reachable state obtained by adding the
batch `[A]` to the freshly constructed Orchestrator. -/
theorem C10_witness :
    (addMissions sysInit [missionA]).scheduledMissionsStatus.length
      = (addMissions sysInit [missionA]).scheduledMissions.length ∧
    ∀ i : Nat, (addMissions sysInit [missionA]).scheduledMissionsStatus[i]?
      = ((addMissions sysInit [missionA]).scheduledMissions[i]?).map Mission.status :=
  C10_parallel_arrays _ (Reachable.add [missionA] Reachable.init)

end GCS
